import Mathlib

/-!
Verification development for the rag_chatbot repository.

The repository contains several divergent rewrites of the same WhatsApp
auto-responder pipeline.  Each relevant implementation is embedded
separately, faithful to its own source file:

* `Webhook` — `src/app/api/webhook/whatsapp/route.ts` (`POST`).
* `V1` — the first `generateAutoResponse` in `src/lib/autoResponder.ts`
  (document lookup, phone config, RAG, history, LLM, checked delivery,
  outbound insert, responded-flag update).
* `V2` — the second `generateAutoResponse` in `src/lib/autoResponder.ts`
  (session store, negative-keyword stop handling, canned close message,
  language-specific fallback replies).
* `RespL` — the `generateAutoResponse` in `src/lib/language.ts`
  (sender-name greeting gated on the history query).
* `ChatRoute` — `src/app/api/chat/route.ts` (`POST`), whose embedding
  failure path degrades to an empty retrieval context.

External collaborators (Whisper transcription, embedding service, Groq
completion, WhatsApp delivery, Supabase tables) are modelled as explicit
inputs: tables as lists of rows, collaborator calls as oracle values.  A
collaborator call that can throw is modelled with `Collab`, whose `fail`
constructor is a thrown exception caught by the surrounding try/catch.
JavaScript string truthiness (null and the empty string are falsy) is
modelled by `truthy`.
-/

/-- One row of the `whatsapp_messages` table. -/
structure StoredMessage where
  message_id : String
  channel : String := ""
  from_number : String
  to_number : String
  received_at : Nat
  content_type : Option String := none
  content_text : Option String := none
  sender_name : Option String := none
  event_type : String
  is_in_24_window : Bool := false
  is_responded : Bool := false
  auto_respond_sent : Bool := false
  response_sent_at : Option Nat := none
deriving Repr, DecidableEq

/-- One row of the `whatsapp_sessions` table. -/
structure Session where
  from_number : String
  to_number : String
  conversation_state : String
  last_user_message : Option String := none
deriving Repr, DecidableEq

/-- One row of the `phone_document_mapping` table (selected columns). -/
structure PhoneMapping where
  system_prompt : Option String := none
  intent : Option String := none
  auth_token : Option String := none
  origin : Option String := none
deriving Repr, DecidableEq

/-- Result of `sendWhatsAppMessage` (the delivery collaborator). -/
structure SendResult where
  success : Bool
  error : Option String := none
deriving Repr, DecidableEq

/-- Result object of `speechToText` (null is modelled by `Option`). -/
structure Transcript where
  text : String
  language : Option String := none
deriving Repr, DecidableEq

/-- The `AutoResponseResult` type of `autoResponder.ts`; absent optional
fields are `none`. -/
structure AutoResponseResult where
  success : Bool
  response : Option String := none
  error : Option String := none
  noDocuments : Bool := false
  sent : Option Bool := none
deriving Repr, DecidableEq

/-- A collaborator call that may throw: `fail e` models a thrown
exception with message `e`, `ok v` a normal return value `v`. -/
inductive Collab (α : Type) where
  | fail (e : String)
  | ok (v : α)
deriving Repr, DecidableEq

/-- JavaScript truthiness of a nullable string: null and the empty
string are falsy. -/
def truthy : Option String → Bool
  | none => false
  | some s => s != ""

/-- JavaScript `toLowerCase`, modelled per character. -/
def lowerStr (s : String) : String := ⟨s.data.map Char.toLower⟩

/-- JavaScript `trim`: strip leading and trailing whitespace. -/
def trimStr (s : String) : String :=
  ⟨(((s.data.dropWhile Char.isWhitespace).reverse).dropWhile Char.isWhitespace).reverse⟩

/-- JavaScript `String.prototype.includes`: substring containment. -/
def strContains (hay needle : String) : Bool := decide (needle.data <:+: hay.data)

/-- JavaScript `Array.prototype.slice(-n)`: the last `n` elements. -/
def takeLast {α : Type} (n : Nat) (l : List α) : List α := l.drop (l.length - n)

/-- JavaScript `Array.prototype.join` with a blank-line separator, as used
for the retrieval context block. -/
def joinChunks : List String → String
  | [] => ""
  | [c] => c
  | c :: cs => c ++ "\n\n" ++ joinChunks cs

/-- Whether a message id is already present (the uniqueness key of
`whatsapp_messages`). -/
def hasId (msgs : List StoredMessage) (id : String) : Bool :=
  msgs.any (fun m => m.message_id == id)

/-- Atomic insert with uniqueness check on `message_id`: `none` models a
Postgres 23505 uniqueness violation. -/
def insertUnique (msgs : List StoredMessage) (m : StoredMessage) :
    Option (List StoredMessage) :=
  if hasId msgs m.message_id then none else some (msgs ++ [m])

/-- Insert whose database error is ignored by the caller (the source
discards the result of these inserts). -/
def insertIgnoreDup (msgs : List StoredMessage) (m : StoredMessage) :
    List StoredMessage :=
  if hasId msgs m.message_id then msgs else msgs ++ [m]

/-- Stable insertion into a list sorted ascending by `received_at`. -/
def insertByTime (m : StoredMessage) : List StoredMessage → List StoredMessage
  | [] => [m]
  | y :: ys =>
      if y.received_at < m.received_at then y :: insertByTime m ys
      else m :: y :: ys

/-- Stable sort ascending by `received_at`, modelling
`order("received_at", { ascending: true })`. -/
def sortByTime : List StoredMessage → List StoredMessage
  | [] => []
  | x :: xs => insertByTime x (sortByTime xs)

/-- The rows selected by
`or(from_number.eq.FROM,to_number.eq.FROM)`: every stored message of the
conversation with this user. -/
def convRows (msgs : List StoredMessage) (fromNumber : String) :
    List StoredMessage :=
  msgs.filter (fun m => m.from_number == fromNumber || m.to_number == fromNumber)

/-- The history query of the responders: conversation rows, ordered by
`received_at` ascending, limited to the first `limit` rows.  Because the
order is ascending, these are the OLDEST rows, not the most recent. -/
def historyWindow (limit : Nat) (msgs : List StoredMessage)
    (fromNumber : String) : List StoredMessage :=
  (sortByTime (convRows msgs fromNumber)).take limit

/-- Role assigned to a stored row when mapped into chat history. -/
def roleOf (m : StoredMessage) : String :=
  if m.event_type == "MoMessage" then "user" else "assistant"

/-- The assembled chat history: window rows filtered to truthy
`content_text`, mapped to role/content pairs. -/
def mkHistory (limit : Nat) (msgs : List StoredMessage)
    (fromNumber : String) : List (String × String) :=
  ((historyWindow limit msgs fromNumber).filter
      (fun m => truthy m.content_text)).map
    (fun m => (roleOf m, m.content_text.getD ""))

namespace V2

/-- The `NEGATIVE_KEYWORDS` list of the second responder. -/
def NEGATIVE_KEYWORDS : List String :=
  ["no", "nahi", "nahin", "ok", "okay", "thanks", "thank you",
   "not interested", "later"]

/-- The local regex-based `detectLanguage` of the second responder:
Gujarati block, Devanagari block, Hinglish marker words, else English. -/
def detectLanguage (text : String) : String :=
  if text.data.any (fun c => decide (0x0A80 ≤ c.toNat ∧ c.toNat ≤ 0x0AFF)) then
    "gujarati"
  else if text.data.any (fun c => decide (0x0900 ≤ c.toNat ∧ c.toNat ≤ 0x097F)) then
    "hindi"
  else if ["hai", "nahi", "kya", "ka", "ki", "ho"].any
      (fun w => strContains (lowerStr text) w) then
    "hinglish"
  else "english"

/-- The language-specific fallback replies of the second responder. -/
def fallback (lang : String) : String :=
  if lang == "hinglish" then "Is topic pe abhi exact info available nahi hai 😊"
  else if lang == "hindi" then "Is vishay par abhi jaankari uplabdh nahi hai 😊"
  else if lang == "gujarati" then "આ વિષય પર હાલમાં માહિતી ઉપલબ્ધ નથી 😊"
  else "I don’t have the right information on this yet 😊"

/-- The negative-intent test:
`NEGATIVE_KEYWORDS.some(k => lower === k || lower.includes(k))`. -/
def negativeMatch (lower : String) : Bool :=
  NEGATIVE_KEYWORDS.any (fun k => lower == k || strContains lower k)

/-- The canned polite close message sent on negative intent. -/
def CANNED_CLOSE : String := "Theek hai 😊"

/-- Session rows matching the conversation key. -/
def sessionRows (sessions : List Session) (fromNumber toNumber : String) :
    List Session :=
  sessions.filter
    (fun s => s.from_number == fromNumber && s.to_number == toNumber)

/-- Supabase `.single()`: data only when exactly one row matches,
otherwise null. -/
def sessionLookup (sessions : List Session) (fromNumber toNumber : String) :
    Option Session :=
  match sessionRows sessions fromNumber toNumber with
  | [s] => some s
  | _ => none

/-- The guard `session?.conversation_state === "STOPPED"`. -/
def stoppedB (sessions : List Session) (fromNumber toNumber : String) : Bool :=
  match sessionLookup sessions fromNumber toNumber with
  | some s => s.conversation_state == "STOPPED"
  | none => false

/-- Supabase `upsert` keyed by the conversation pair: replace any
existing row for the key with the new row. -/
def upsertSession (sessions : List Session) (s : Session) : List Session :=
  (sessions.filter
      (fun x => !(x.from_number == s.from_number && x.to_number == s.to_number)))
    ++ [s]

/-- Oracle inputs of the second responder. -/
structure Env where
  stt : Option Transcript := none
  files : List String := []
  llm : Option String := none
deriving Repr, DecidableEq

/-- The result object of the second responder (`{success}` or
`{success, response}`). -/
structure Result where
  success : Bool
  response : Option String := none
deriving Repr, DecidableEq

/-- Observable outcome of one call of the second responder. -/
structure Output where
  result : Result
  sessions : List Session
  sendCalls : List String
  llmCalled : Bool
deriving Repr, DecidableEq

/-- The second `generateAutoResponse` of `autoResponder.ts`: session
check, text/voice normalisation, negative-intent stop, language
detection, fallback on no documents, LLM reply with fallback
substitution, delivery, session upsert. -/
def run (env : Env) (sessions : List Session) (fromNumber toNumber : String)
    (messageText : Option String) (mediaUrl : Option String) : Output :=
  if stoppedB sessions fromNumber toNumber then
    ⟨⟨true, none⟩, sessions, [], false⟩
  else
    let t0 := trimStr (messageText.getD "")
    let finalText? : Option String :=
      if t0 == "" && truthy mediaUrl then
        match env.stt with
        | none => none
        | some tr => if tr.text == "" then none else some (trimStr tr.text)
      else some t0
    match finalText? with
    | none => ⟨⟨false, none⟩, sessions, [], false⟩
    | some finalText =>
      if finalText == "" then ⟨⟨false, none⟩, sessions, [], false⟩
      else
        let lower := lowerStr finalText
        if negativeMatch lower then
          ⟨⟨true, none⟩,
            upsertSession sessions ⟨fromNumber, toNumber, "STOPPED", some finalText⟩,
            [CANNED_CLOSE], false⟩
        else
          let language := detectLanguage finalText
          if env.files.isEmpty then
            ⟨⟨true, none⟩, sessions, [fallback language], false⟩
          else
            let reply :=
              match env.llm with
              | some c => if trimStr c == "" then fallback language else trimStr c
              | none => fallback language
            ⟨⟨true, some reply⟩,
              upsertSession sessions ⟨fromNumber, toNumber, "ACTIVE", some finalText⟩,
              [reply], true⟩

end V2

namespace V1

/-- Oracle inputs of the first responder.  `mappingErr`/`mappingData`
model the supabase read of `phone_document_mapping`; `Collab.fail`
models a thrown exception reaching the outer try/catch. -/
structure Env where
  files : List String := []
  mappingErr : Bool := false
  mappingData : Option (List PhoneMapping) := none
  stt : Option Transcript := none
  embed : Collab (Option Nat) := .ok none
  retrieve : Collab (List String) := .ok []
  llm : Collab String := .ok ""
  send : Collab SendResult := .ok {success := true}
deriving Repr, DecidableEq

/-- Observable outcome of one call of the first responder.  `sessions`
is carried through untouched: this implementation reads and writes no
session table.  `llmHistory` is the history slice passed to the
generation collaborator. -/
structure Output where
  result : AutoResponseResult
  msgs : List StoredMessage
  sessions : List Session
  sendCalls : List (String × String)
  llmCalled : Bool
  llmHistory : List (String × String)
deriving Repr, DecidableEq

/-- The first `generateAutoResponse` of `autoResponder.ts`: documents,
phone config, text/voice normalisation, embedding, retrieval, history
(ascending, limit 20, last 10 passed on), LLM, checked delivery,
outbound insert, responded-flag update; outer try/catch mapping any
thrown error `e` to `{success: false, error: e}`. -/
def run (env : Env) (msgs : List StoredMessage) (sessions : List Session)
    (fromNumber toNumber : String) (messageText : Option String)
    (messageId : String) (mediaUrl : Option String) (now : Nat) : Output :=
  if env.files.isEmpty then
    ⟨⟨false, none, some "No documents mapped to this business number", true, none⟩,
      msgs, sessions, [], false, []⟩
  else
    match env.mappingData, env.mappingErr with
    | some (mapping :: _), false =>
      if truthy mapping.auth_token && truthy mapping.origin then
        let t0 := trimStr (messageText.getD "")
        let finalText? : Option String :=
          if t0 == "" && truthy mediaUrl then
            match env.stt with
            | none => none
            | some tr => some tr.text
          else some t0
        match finalText? with
        | none =>
          ⟨⟨false, none, some "Failed to transcribe voice message", false, none⟩,
            msgs, sessions, [], false, []⟩
        | some finalText =>
          if trimStr finalText == "" then
            ⟨⟨false, none, some "Empty user message", false, none⟩,
              msgs, sessions, [], false, []⟩
          else
            match env.embed with
            | .fail e =>
              ⟨⟨false, none, some e, false, none⟩, msgs, sessions, [], false, []⟩
            | .ok none =>
              ⟨⟨false, none, some "Failed to embed query", false, none⟩,
                msgs, sessions, [], false, []⟩
            | .ok (some _) =>
              match env.retrieve with
              | .fail e =>
                ⟨⟨false, none, some e, false, none⟩, msgs, sessions, [], false, []⟩
              | .ok _ =>
                let llmHist := takeLast 10 (mkHistory 20 msgs fromNumber)
                match env.llm with
                | .fail e =>
                  ⟨⟨false, none, some e, false, none⟩,
                    msgs, sessions, [], true, llmHist⟩
                | .ok resp =>
                  if resp == "" then
                    ⟨⟨false, none, some "LLM returned empty response", false, none⟩,
                      msgs, sessions, [], true, llmHist⟩
                  else
                    match env.send with
                    | .fail e =>
                      ⟨⟨false, none, some e, false, none⟩,
                        msgs, sessions, [(fromNumber, resp)], true, llmHist⟩
                    | .ok sr =>
                      if sr.success then
                        let aiMsg : StoredMessage :=
                          { message_id := "auto_" ++ messageId ++ "_" ++ toString now,
                            channel := "whatsapp",
                            from_number := toNumber,
                            to_number := fromNumber,
                            received_at := now,
                            content_type := some "text",
                            content_text := some resp,
                            sender_name := some "AI Assistant",
                            event_type := "MtMessage",
                            is_in_24_window := true }
                        let msgs1 := insertIgnoreDup msgs aiMsg
                        let msgs2 := msgs1.map (fun m =>
                          if m.message_id == messageId then
                            { m with auto_respond_sent := true,
                                     response_sent_at := some now }
                          else m)
                        ⟨⟨true, some resp, none, false, some true⟩,
                          msgs2, sessions, [(fromNumber, resp)], true, llmHist⟩
                      else
                        ⟨⟨false, some resp, sr.error, false, some false⟩,
                          msgs, sessions, [(fromNumber, resp)], true, llmHist⟩
      else
        ⟨⟨false, none, some "WhatsApp API credentials missing", false, none⟩,
          msgs, sessions, [], false, []⟩
    | _, _ =>
      ⟨⟨false, none, some "Phone configuration not found", false, none⟩,
        msgs, sessions, [], false, []⟩

end V1

namespace Webhook

/-- The `content` object of the webhook payload. -/
structure Content where
  contentType : String
  text : Option String := none
  mediaUrl : Option String := none
deriving Repr, DecidableEq

/-- The `WhatsAppWebhookPayload` type of the webhook route (absent
optional fields are `none`; `receivedAt` is modelled as a timestamp). -/
structure Payload where
  messageId : String
  channel : String := "whatsapp"
  fromNumber : String
  toNumber : String
  receivedAt : Nat := 0
  content : Option Content := none
  senderName : Option String := none
  event : String
  isin24window : Bool := false
  isResponded : Bool := false
  userResponse : Option String := none
deriving Repr, DecidableEq

/-- The JSON body returned by the webhook handler; only the fields that
are actually set are modelled, absent ones are `none`. -/
structure RespBody where
  success : Option Bool := none
  duplicate : Option Bool := none
  message : Option String := none
  error : Option String := none
deriving Repr, DecidableEq

/-- Oracle input of the webhook route: the result of
`transcribeAudioFromUrl` (string or null). -/
structure Env where
  transcribe : Option String := none
deriving Repr, DecidableEq

/-- Observable outcome of one webhook `POST`: HTTP status, JSON body,
message table afterwards, number of transcription calls, whether the
auto-responder was invoked.  `sessions` is carried through untouched:
the webhook route reads and writes no session table. -/
structure Output where
  status : Nat
  body : RespBody
  msgs : List StoredMessage
  sessions : List Session
  transcribeCalls : Nat
  respondCalled : Bool
deriving Repr, DecidableEq

/-- The inbound row the webhook inserts into `whatsapp_messages`. -/
def mkInbound (p : Payload) (finalUserText : Option String) : StoredMessage :=
  { message_id := p.messageId,
    channel := p.channel,
    from_number := p.fromNumber,
    to_number := p.toNumber,
    received_at := p.receivedAt,
    content_type := p.content.map (fun c => c.contentType),
    content_text := finalUserText,
    sender_name := p.senderName,
    event_type := p.event,
    is_in_24_window := p.isin24window,
    is_responded := p.isResponded }

/-- The tail of the webhook handler after `finalUserText` is fixed:
store the inbound message (returning the duplicate acknowledgement on a
uniqueness violation) and invoke the auto-responder for truthy
user-originated text. -/
def afterText (p : Payload) (msgs : List StoredMessage)
    (sessions : List Session) (finalUserText : Option String)
    (tCalls : Nat) : Output :=
  match insertUnique msgs (mkInbound p finalUserText) with
  | none =>
    ⟨200, {success := some true, duplicate := some true,
           message := some "Message already processed"},
      msgs, sessions, tCalls, false⟩
  | some msgs1 =>
    ⟨200, {success := some true,
           message := some "WhatsApp webhook processed successfully"},
      msgs1, sessions, tCalls,
      truthy finalUserText && p.event == "MoMessage"⟩

/-- Whether the payload is an audio event. -/
def audioEvent (p : Payload) : Bool :=
  match p.content with
  | some c => c.contentType == "audio"
  | none => false

/-- The webhook `POST` handler: validation, text extraction or audio
transcription, insert with duplicate safeguard, auto-response
dispatch. -/
def run (env : Env) (p : Payload) (msgs : List StoredMessage)
    (sessions : List Session) : Output :=
  if p.messageId == "" || p.fromNumber == "" || p.toNumber == "" then
    ⟨400, {error := some "Missing required fields: messageId, from, or to"},
      msgs, sessions, 0, false⟩
  else
    match p.content with
    | some c =>
      if c.contentType == "audio" then
        if !(truthy c.mediaUrl) then
          ⟨200, {success := some true}, msgs, sessions, 0, false⟩
        else
          match env.transcribe with
          | none => ⟨200, {success := some true}, msgs, sessions, 1, false⟩
          | some tr =>
            if tr == "" then
              ⟨200, {success := some true}, msgs, sessions, 1, false⟩
            else afterText p msgs sessions (some tr) 1
      else
        let textValue : Option String :=
          if c.contentType == "text" then
            if truthy c.text then c.text
            else if truthy p.userResponse then p.userResponse
            else none
          else none
        afterText p msgs sessions textValue 0
    | none => afterText p msgs sessions none 0

end Webhook

namespace ChatRoute

/-- The `SMALL_TALK` list of the chat route. -/
def SMALL_TALK : List String :=
  ["hi", "hello", "hey", "ok", "okay", "thanks", "thank you", "bye"]

/-- `isSmallTalk`: membership of the trimmed lowercased message. -/
def isSmallTalk (message : String) : Bool :=
  SMALL_TALK.contains (lowerStr (trimStr message))

/-- Oracle inputs of the chat route. -/
structure Env where
  embed : Collab (Option Nat) := .ok none
  retrieve : Collab (List String) := .ok []
  llm : Collab (Option String) := .ok none
deriving Repr, DecidableEq

/-- Observable outcome of one chat `POST`: HTTP status, body text,
whether generation was invoked, and the retrieval context it was given
(`none` when generation was not reached). -/
structure Output where
  status : Nat
  body : String
  llmCalled : Bool
  contextUsed : Option String
deriving Repr, DecidableEq

/-- The chat route `POST` handler: validation, small-talk short circuit,
embedding and retrieval inside a try/catch that degrades to an empty
context, generation with a fixed fallback answer, outer catch returning
an apology with status 200. -/
def run (env : Env) (sessionId : Option String) (message : Option String) :
    Output :=
  if !(truthy sessionId && truthy message) then
    ⟨400, "Invalid request", false, none⟩
  else
    let msg := message.getD ""
    if isSmallTalk msg then
      ⟨200, "Hi 😊 Kaise help kar sakta hoon?", false, none⟩
    else
      let contextText :=
        match env.embed with
        | .fail _ => ""
        | .ok none => ""
        | .ok (some _) =>
          match env.retrieve with
          | .fail _ => ""
          | .ok chunks => joinChunks chunks
      match env.llm with
      | .fail _ =>
        ⟨200, "Thoda sa issue aa gaya 😅 Please thodi der baad try karein.",
          true, some contextText⟩
      | .ok content =>
        let answer :=
          match content with
          | none => "Abhi ispe exact info available nahi hai 😊"
          | some c =>
            if c == "" then "Abhi ispe exact info available nahi hai 😊" else c
        ⟨200, answer, true, some contextText⟩

end ChatRoute

namespace RespL

/-- `cleanUserName` of `language.ts`: strip every character that is not
a letter, digit or whitespace, then trim; a falsy input gives null. -/
def cleanUserName (name : Option String) : Option String :=
  match name with
  | none => none
  | some s =>
    if s == "" then none
    else some (trimStr
      ⟨s.data.filter (fun c => c.isAlpha || c.isDigit || c.isWhitespace)⟩)

/-- The greeting builder of `language.ts` (the language argument is
ignored by the source): empty for a falsy name. -/
def greetingText (name : Option String) : String :=
  match name with
  | none => ""
  | some n => if n == "" then "" else "Hi " ++ n ++ " 😊 "

/-- Oracle inputs of the `language.ts` responder. -/
structure Env where
  files : List String := []
  mappingData : Option (List PhoneMapping) := none
  stt : Option Transcript := none
  embed : Option Nat := none
  retrieve : List String := []
  llm : Option String := none
  send : SendResult := {success := true}
deriving Repr, DecidableEq

/-- Observable outcome of one call of the `language.ts` responder.
`greeted` records whether the name greeting was prepended. -/
structure Output where
  result : AutoResponseResult
  msgs : List StoredMessage
  sendCalls : List String
  greeted : Bool
  llmCalled : Bool
deriving Repr, DecidableEq

/-- The `generateAutoResponse` of `language.ts`: documents, phone
config, text/voice normalisation, embedding, retrieval, history
(ascending, limit 15), name greeting gated on the history being empty,
checked delivery, outbound insert. -/
def run (env : Env) (msgs : List StoredMessage) (fromNumber toNumber : String)
    (messageText : Option String) (messageId : String)
    (mediaUrl : Option String) (senderName : Option String) (now : Nat) :
    Output :=
  if env.files.isEmpty then
    ⟨⟨false, none, none, true, none⟩, msgs, [], false, false⟩
  else
    match env.mappingData with
    | some (mp :: _) =>
      if truthy mp.auth_token && truthy mp.origin then
        let t0 := trimStr (messageText.getD "")
        let finalText? : Option String :=
          if t0 == "" && truthy mediaUrl then
            match env.stt with
            | none => none
            | some tr => if tr.text == "" then none else some tr.text
          else some t0
        match finalText? with
        | none =>
          ⟨⟨false, none, some "Voice transcription failed", false, none⟩,
            msgs, [], false, false⟩
        | some finalText =>
          if finalText == "" then
            ⟨⟨false, none, some "Empty message", false, none⟩,
              msgs, [], false, false⟩
          else
            match env.embed with
            | none =>
              ⟨⟨false, none, some "Embedding failed", false, none⟩,
                msgs, [], false, false⟩
            | some _ =>
              let history := mkHistory 15 msgs fromNumber
              let userName := cleanUserName senderName
              match env.llm with
              | none =>
                ⟨⟨false, none, some "Empty AI response", false, none⟩,
                  msgs, [], false, true⟩
              | some content =>
                if content == "" then
                  ⟨⟨false, none, some "Empty AI response", false, none⟩,
                    msgs, [], false, true⟩
                else
                  let greeted := history.isEmpty && truthy userName
                  let reply :=
                    if greeted then greetingText userName ++ content
                    else content
                  if env.send.success then
                    let botMsg : StoredMessage :=
                      { message_id := "auto_" ++ messageId ++ "_" ++ toString now,
                        channel := "whatsapp",
                        from_number := toNumber,
                        to_number := fromNumber,
                        received_at := now,
                        content_type := some "text",
                        content_text := some reply,
                        sender_name := some "AI Assistant",
                        event_type := "MtMessage",
                        is_in_24_window := true }
                    ⟨⟨true, some reply, none, false, some true⟩,
                      insertIgnoreDup msgs botMsg, [reply], greeted, true⟩
                  else
                    ⟨⟨false, none, env.send.error, false, none⟩,
                      msgs, [reply], greeted, true⟩
      else
        ⟨⟨false, none, some "WhatsApp credentials missing", false, none⟩,
          msgs, [], false, false⟩
    | _ =>
      ⟨⟨false, none, some "Phone config missing", false, none⟩,
        msgs, [], false, false⟩

/-- One inbound event of a conversation trace: either a stored event
with no usable text (stored by the webhook, never answered) or a user
text turn (stored, then answered through the responder). -/
inductive TurnEvent where
  | raw (msgId : String) (ts : Nat)
  | user (msgId : String) (text : String) (ts : Nat)
deriving Repr, DecidableEq

/-- The row the webhook stores for an event with no usable text. -/
def mkRawInbound (userNum bizNum msgId : String) (ts : Nat) : StoredMessage :=
  { message_id := msgId, channel := "whatsapp", from_number := userNum,
    to_number := bizNum, received_at := ts, content_type := some "text",
    content_text := none, event_type := "MoMessage" }

/-- The row the webhook stores for a user text turn. -/
def mkUserInbound (userNum bizNum msgId text : String) (ts : Nat) :
    StoredMessage :=
  { message_id := msgId, channel := "whatsapp", from_number := userNum,
    to_number := bizNum, received_at := ts, content_type := some "text",
    content_text := some text, event_type := "MoMessage" }

/-- One trace step: store the inbound event first (as the webhook does),
then answer user text turns through the responder.  Returns the new
message table and whether the reply carried the greeting. -/
def traceStep (env : Env) (userNum bizNum senderName : String)
    (msgs : List StoredMessage) : TurnEvent → List StoredMessage × Bool
  | .raw id ts => (insertIgnoreDup msgs (mkRawInbound userNum bizNum id ts), false)
  | .user id text ts =>
    let msgs1 := insertIgnoreDup msgs (mkUserInbound userNum bizNum id text ts)
    let o := run env msgs1 userNum bizNum (some text) id none (some senderName) ts
    (o.msgs, o.greeted)

/-- A full conversation trace: the final message table and the number of
outbound replies that carried the greeting. -/
def runTrace (env : Env) (userNum bizNum senderName : String)
    (msgs : List StoredMessage) : List TurnEvent → List StoredMessage × Nat
  | [] => (msgs, 0)
  | e :: es =>
    let s := traceStep env userNum bizNum senderName msgs e
    let r := runTrace env userNum bizNum senderName s.1 es
    (r.1, (if s.2 then 1 else 0) + r.2)

end RespL

/-! Concrete fixtures used by counterexamples and witnesses. -/

/-- A concrete inbound audio event. -/
def audioPayload : Webhook.Payload :=
  { messageId := "a1", fromNumber := "U1", toNumber := "B1", receivedAt := 5,
    content := some { contentType := "audio", mediaUrl := some "https-media-x" },
    event := "MoMessage" }

/-- A concrete inbound text event. -/
def textPayload : Webhook.Payload :=
  { messageId := "t1", fromNumber := "U1", toNumber := "B1", receivedAt := 7,
    content := some { contentType := "text", text := some "hello" },
    event := "MoMessage" }

/-- A webhook environment whose transcription collaborator succeeds. -/
def webhookEnvOk : Webhook.Env := { transcribe := some "hello voice" }

/-- The just-inserted inbound message of the V1 counterexamples. -/
def inboundM1 : StoredMessage :=
  { message_id := "m1", from_number := "U1", to_number := "B1",
    received_at := 10, content_text := some "hello", event_type := "MoMessage" }

/-- A V1 environment in which every collaborator succeeds. -/
def v1EnvOk : V1.Env :=
  { files := ["f1"], mappingErr := false,
    mappingData := some [{ auth_token := some "tok", origin := some "org" }],
    embed := .ok (some 1), retrieve := .ok [], llm := .ok "reply!",
    send := .ok { success := true } }

/-- A `language.ts` responder environment in which every collaborator
succeeds. -/
def respLEnvOk : RespL.Env :=
  { files := ["f1"],
    mappingData := some [{ auth_token := some "tok", origin := some "org" }],
    embed := some 1, retrieve := [], llm := some "Sure, here are the details",
    send := { success := true } }

/-- A conversation trace: fifteen stored events with no usable text,
then two user text turns. -/
def greetTraceEvents : List RespL.TurnEvent :=
  [.raw "r1" 1, .raw "r2" 2, .raw "r3" 3, .raw "r4" 4, .raw "r5" 5,
   .raw "r6" 6, .raw "r7" 7, .raw "r8" 8, .raw "r9" 9, .raw "r10" 10,
   .raw "r11" 11, .raw "r12" 12, .raw "r13" 13, .raw "r14" 14, .raw "r15" 15,
   .user "u16" "hello there" 16, .user "u17" "tell me more" 17]

/-! Helper lemmas about the store operations. -/

theorem mem_insertByTime {m x : StoredMessage} {l : List StoredMessage} :
    m ∈ insertByTime x l ↔ m = x ∨ m ∈ l := by
  induction l with
  | nil => simp [insertByTime]
  | cons y ys ih =>
    simp only [insertByTime]
    split
    · simp only [List.mem_cons, ih]; tauto
    · simp only [List.mem_cons]

theorem length_insertByTime (x : StoredMessage) (l : List StoredMessage) :
    (insertByTime x l).length = l.length + 1 := by
  induction l with
  | nil => rfl
  | cons y ys ih =>
    simp only [insertByTime]
    split
    · simp [ih]
    · simp

theorem mem_sortByTime {m : StoredMessage} {l : List StoredMessage} :
    m ∈ sortByTime l ↔ m ∈ l := by
  induction l with
  | nil => simp [sortByTime]
  | cons x xs ih =>
    simp only [sortByTime, mem_insertByTime, ih, List.mem_cons]

theorem length_sortByTime (l : List StoredMessage) :
    (sortByTime l).length = l.length := by
  induction l with
  | nil => rfl
  | cons x xs ih => simp [sortByTime, length_insertByTime, ih]

theorem takeLast_of_length_le {α : Type} {n : Nat} {l : List α}
    (h : l.length ≤ n) : takeLast n l = l := by
  unfold takeLast
  rw [Nat.sub_eq_zero_of_le h, List.drop_zero]

theorem filter_not_filter {α : Type} (p : α → Bool) (l : List α) :
    (l.filter (fun x => !(p x))).filter p = [] := by
  induction l with
  | nil => rfl
  | cons a l ih =>
    by_cases h : p a <;> simp [List.filter_cons, h, ih]

theorem sessionRows_upsert (sessions : List Session) (s : Session) :
    V2.sessionRows (V2.upsertSession sessions s) s.from_number s.to_number
      = [s] := by
  unfold V2.sessionRows V2.upsertSession
  rw [List.filter_append, filter_not_filter]
  simp

theorem sessionLookup_upsert (sessions : List Session) (s : Session) :
    V2.sessionLookup (V2.upsertSession sessions s) s.from_number s.to_number
      = some s := by
  unfold V2.sessionLookup
  rw [sessionRows_upsert]

/-- Every language-specific fallback reply is a fixed non-empty string. -/
theorem fallback_ne_empty (lang : String) : V2.fallback lang ≠ "" := by
  unfold V2.fallback
  split
  · decide
  · split
    · decide
    · split
      · decide
      · decide

/-- Shared description of the negative-intent path of the second
responder: from a non-stopped session, a matching utterance stops the
session, sends the canned close message and skips generation. -/
theorem v2_negative_run (env : V2.Env) (sessions : List Session)
    (fromNumber toNumber t : String) (mediaUrl : Option String)
    (hstop : V2.stoppedB sessions fromNumber toNumber = false)
    (hne : trimStr t ≠ "")
    (hneg : V2.negativeMatch (lowerStr (trimStr t)) = true) :
    V2.run env sessions fromNumber toNumber (some t) mediaUrl =
      ⟨⟨true, none⟩,
        V2.upsertSession sessions
          ⟨fromNumber, toNumber, "STOPPED", some (trimStr t)⟩,
        [V2.CANNED_CLOSE], false⟩ := by
  have h1 : (trimStr t == "") = false := by simpa using hne
  unfold V2.run
  rw [hstop]
  simp [h1, hneg]

/-! Claim theorems. -/

/-- Claim C4 (confirmed): from every non-STOPPED session state, an
utterance matching the reject lexicon drives the session to STOPPED and
triggers the canned polite close message without invoking the generation
collaborator; once STOPPED, the state is terminal: a call on a stopped
conversation changes nothing, sends nothing and captures nothing (the
code contains no reset, so nothing happens until an explicit reset). -/
theorem c4_reject_drives_stopped_and_stopped_is_terminal :
    (∀ (env : V2.Env) (sessions : List Session)
        (fromNumber toNumber t : String) (mediaUrl : Option String),
      V2.stoppedB sessions fromNumber toNumber = false →
      trimStr t ≠ "" →
      V2.negativeMatch (lowerStr (trimStr t)) = true →
      V2.sessionLookup
          (V2.run env sessions fromNumber toNumber (some t) mediaUrl).sessions
          fromNumber toNumber
        = some ⟨fromNumber, toNumber, "STOPPED", some (trimStr t)⟩ ∧
      (V2.run env sessions fromNumber toNumber (some t) mediaUrl).sendCalls
        = [V2.CANNED_CLOSE] ∧
      (V2.run env sessions fromNumber toNumber (some t) mediaUrl).llmCalled
        = false) ∧
    (∀ (env : V2.Env) (sessions : List Session) (fromNumber toNumber : String)
        (messageText mediaUrl : Option String),
      V2.stoppedB sessions fromNumber toNumber = true →
      V2.run env sessions fromNumber toNumber messageText mediaUrl
        = ⟨⟨true, none⟩, sessions, [], false⟩) := by
  constructor
  · intro env sessions fromNumber toNumber t mediaUrl hstop hne hneg
    rw [v2_negative_run env sessions fromNumber toNumber t mediaUrl hstop hne hneg]
    exact ⟨sessionLookup_upsert sessions
      ⟨fromNumber, toNumber, "STOPPED", some (trimStr t)⟩, rfl, rfl⟩
  · intro env sessions fromNumber toNumber messageText mediaUrl hstop
    unfold V2.run
    rw [hstop]
    simp

/-- Claim C4 witness: the scenario of the specification, with
utterance "nahi thanks" stopping an active session, and a stopped
session ignoring "VR chahiye". -/
theorem c4_witness :
    (V2.sessionLookup
        (V2.run { files := ["f"], llm := some "x" } [] "U1" "B1"
          (some "nahi thanks") none).sessions "U1" "B1"
      = some ⟨"U1", "B1", "STOPPED", some (trimStr "nahi thanks")⟩ ∧
    (V2.run { files := ["f"], llm := some "x" } [] "U1" "B1"
        (some "nahi thanks") none).sendCalls = [V2.CANNED_CLOSE] ∧
    (V2.run { files := ["f"], llm := some "x" } [] "U1" "B1"
        (some "nahi thanks") none).llmCalled = false) ∧
    V2.run { files := ["f"], llm := some "x" }
        [⟨"U1", "B1", "STOPPED", none⟩] "U1" "B1" (some "VR chahiye") none
      = ⟨⟨true, none⟩, [⟨"U1", "B1", "STOPPED", none⟩], [], false⟩ :=
  ⟨c4_reject_drives_stopped_and_stopped_is_terminal.1
      { files := ["f"], llm := some "x" } [] "U1" "B1" "nahi thanks" none
      (by decide) (by decide) (by decide),
    c4_reject_drives_stopped_and_stopped_is_terminal.2
      { files := ["f"], llm := some "x" } [⟨"U1", "B1", "STOPPED", none⟩]
      "U1" "B1" (some "VR chahiye") none (by decide)⟩

/-- Claim C10 (confirmed): the negative-intent check matches by
substring: any utterance whose trimmed lowercased text contains a
negative keyword anywhere, also strictly inside a longer word, stops
the session, sends the canned close message and never invokes
generation for that utterance. -/
theorem c10_negative_check_matches_substrings (env : V2.Env)
    (sessions : List Session) (fromNumber toNumber t : String)
    (mediaUrl : Option String)
    (hstop : V2.stoppedB sessions fromNumber toNumber = false)
    (hne : trimStr t ≠ "")
    (hk : ∃ k ∈ V2.NEGATIVE_KEYWORDS,
            strContains (lowerStr (trimStr t)) k = true) :
    V2.sessionLookup
        (V2.run env sessions fromNumber toNumber (some t) mediaUrl).sessions
        fromNumber toNumber
      = some ⟨fromNumber, toNumber, "STOPPED", some (trimStr t)⟩ ∧
    (V2.run env sessions fromNumber toNumber (some t) mediaUrl).sendCalls
      = [V2.CANNED_CLOSE] ∧
    (V2.run env sessions fromNumber toNumber (some t) mediaUrl).llmCalled
      = false := by
  have hneg : V2.negativeMatch (lowerStr (trimStr t)) = true := by
    rcases hk with ⟨k, hmem, hsub⟩
    unfold V2.negativeMatch
    rw [List.any_eq_true]
    refine ⟨k, hmem, ?_⟩
    rw [hsub]
    simp
  rw [v2_negative_run env sessions fromNumber toNumber t mediaUrl hstop hne hneg]
  exact ⟨sessionLookup_upsert sessions
    ⟨fromNumber, toNumber, "STOPPED", some (trimStr t)⟩, rfl, rfl⟩

/-- Claim C10 witness: "booking" contains "ok" only as a substring of a
longer word, yet it stops the session, triggers the canned close and
skips generation. -/
theorem c10_witness :
    V2.sessionLookup
        (V2.run { files := ["f"], llm := some "x" } [] "U1" "B1"
          (some "booking") none).sessions "U1" "B1"
      = some ⟨"U1", "B1", "STOPPED", some (trimStr "booking")⟩ ∧
    (V2.run { files := ["f"], llm := some "x" } [] "U1" "B1"
        (some "booking") none).sendCalls = [V2.CANNED_CLOSE] ∧
    (V2.run { files := ["f"], llm := some "x" } [] "U1" "B1"
        (some "booking") none).llmCalled = false :=
  c10_negative_check_matches_substrings
    { files := ["f"], llm := some "x" } [] "U1" "B1" "booking" none
    (by decide) (by decide) ⟨"ok", by decide, by decide⟩

/-- Claim C6 counterexample (corrected): in the first responder of
`autoResponder.ts`, an empty generation result is NOT replaced by a
fallback string; the call returns a failure result with an error
message and no reply is sent, contradicting the claim that a fixed
non-empty fallback is substituted instead of propagating failure. -/
theorem c6_counterexample_v1_empty_generation_propagates_error :
    (V1.run { v1EnvOk with llm := .ok "" } [inboundM1] [] "U1" "B1"
        (some "hello") "m1" none 99).result
      = ⟨false, none, some "LLM returned empty response", false, none⟩ ∧
    (V1.run { v1EnvOk with llm := .ok "" } [inboundM1] [] "U1" "B1"
        (some "hello") "m1" none 99).sendCalls = [] := by
  decide

/-- Claim C6 as amended (the second responder of `autoResponder.ts`):
when the generation collaborator returns empty or whitespace-only
content, the language-specific fixed non-empty fallback string is
substituted as the reply and sent, and the call still succeeds; the
first responder instead returns an error result and sends nothing. -/
theorem c6_amended_v2_substitutes_fixed_fallback (env : V2.Env)
    (sessions : List Session) (fromNumber toNumber t : String)
    (mediaUrl : Option String)
    (hstop : V2.stoppedB sessions fromNumber toNumber = false)
    (hne : trimStr t ≠ "")
    (hneg : V2.negativeMatch (lowerStr (trimStr t)) = false)
    (hfiles : env.files ≠ [])
    (hllm : env.llm = none ∨ ∃ c, env.llm = some c ∧ trimStr c = "") :
    (V2.run env sessions fromNumber toNumber (some t) mediaUrl).result
      = ⟨true, some (V2.fallback (V2.detectLanguage (trimStr t)))⟩ ∧
    (V2.run env sessions fromNumber toNumber (some t) mediaUrl).sendCalls
      = [V2.fallback (V2.detectLanguage (trimStr t))] ∧
    V2.fallback (V2.detectLanguage (trimStr t)) ≠ "" := by
  have h1 : (trimStr t == "") = false := by simpa using hne
  have hfe : env.files.isEmpty = false := by
    cases h : env.files
    · exact absurd h hfiles
    · rfl
  have hrun : V2.run env sessions fromNumber toNumber (some t) mediaUrl =
      ⟨⟨true, some (V2.fallback (V2.detectLanguage (trimStr t)))⟩,
        V2.upsertSession sessions
          ⟨fromNumber, toNumber, "ACTIVE", some (trimStr t)⟩,
        [V2.fallback (V2.detectLanguage (trimStr t))], true⟩ := by
    unfold V2.run
    rw [hstop]
    rcases hllm with hnone | ⟨c, hc, hct⟩
    · simp [h1, hneg, hfe, hnone]
    · simp [h1, hneg, hfe, hc, hct]
  rw [hrun]
  exact ⟨rfl, rfl, fallback_ne_empty _⟩

/-- Claim C6 witness: generation returns empty content on an English
utterance; the fixed English fallback is sent and returned. -/
theorem c6_amended_witness :
    (V2.run { files := ["f"], llm := some "" } [] "U1" "B1"
        (some "hello") none).result
      = ⟨true, some (V2.fallback (V2.detectLanguage (trimStr "hello")))⟩ ∧
    (V2.run { files := ["f"], llm := some "" } [] "U1" "B1"
        (some "hello") none).sendCalls
      = [V2.fallback (V2.detectLanguage (trimStr "hello"))] ∧
    V2.fallback (V2.detectLanguage (trimStr "hello")) ≠ "" :=
  c6_amended_v2_substitutes_fixed_fallback
    { files := ["f"], llm := some "" } [] "U1" "B1" "hello" none
    (by decide) (by decide) (by decide) (by decide)
    (Or.inr ⟨"", rfl, rfl⟩)

/-- Claim C9 (confirmed): for every input and every combination of
collaborator outcomes, including thrown exceptions (`Collab.fail`), the
first responder of `autoResponder.ts` is a total function (nothing
escapes the orchestrator boundary) and every failure is mapped to a
structured result with `success = false` and a defined failure
indicator: an error message, or the explicit `sent = false` marker of a
delivery failure. -/
theorem c9_no_unhandled_error_escapes_orchestrator :
    ∀ (env : V1.Env) (msgs : List StoredMessage) (sessions : List Session)
      (fromNumber toNumber : String) (messageText : Option String)
      (messageId : String) (mediaUrl : Option String) (now : Nat),
      ((V1.run env msgs sessions fromNumber toNumber messageText messageId
          mediaUrl now).result.success = true ∧
       (V1.run env msgs sessions fromNumber toNumber messageText messageId
          mediaUrl now).result.error = none) ∨
      ((V1.run env msgs sessions fromNumber toNumber messageText messageId
          mediaUrl now).result.success = false ∧
       ((V1.run env msgs sessions fromNumber toNumber messageText messageId
          mediaUrl now).result.error.isSome = true ∨
        (V1.run env msgs sessions fromNumber toNumber messageText messageId
          mediaUrl now).result.sent = some false)) := by
  intro env msgs sessions fromNumber toNumber messageText messageId mediaUrl now
  unfold V1.run
  repeat' split
  all_goals try simp
  all_goals repeat' split
  all_goals simp

/-- Claim C5 counterexample (corrected): in the first responder of
`autoResponder.ts`, an embedding failure does NOT degrade to a
no-context reply: the turn aborts with an error result, generation is
never invoked and nothing is sent, contradicting the claim that every
embedding failure degrades rather than aborting the turn or propagating
the error to the caller. -/
theorem c5_counterexample_v1_embed_failure_aborts :
    V1.run { v1EnvOk with embed := .ok none } [inboundM1] [] "U1" "B1"
        (some "hello") "m1" none 99
      = ⟨⟨false, none, some "Failed to embed query", false, none⟩,
          [inboundM1], [], [], false, []⟩ := by
  decide

/-- Claim C5 as amended: the two pipelines diverge.  In the chat route,
an embedding failure (thrown or null) degrades to generation over an
empty retrieval context with a 200 response; in the first responder of
`autoResponder.ts`, an embedding failure aborts the turn with an error
result, without invoking generation and without sending anything. -/
theorem c5_amended_embedding_failure_paths :
    (∀ (env : ChatRoute.Env) (sessionId message : Option String),
      truthy sessionId = true → truthy message = true →
      ChatRoute.isSmallTalk (message.getD "") = false →
      ((∃ e, env.embed = .fail e) ∨ env.embed = .ok none) →
      (ChatRoute.run env sessionId message).status = 200 ∧
      (ChatRoute.run env sessionId message).llmCalled = true ∧
      (ChatRoute.run env sessionId message).contextUsed = some "") ∧
    (∀ (env : V1.Env) (msgs : List StoredMessage) (sessions : List Session)
        (fromNumber toNumber t messageId : String) (mediaUrl : Option String)
        (now : Nat) (mp : PhoneMapping) (rest : List PhoneMapping),
      env.files ≠ [] → env.mappingErr = false →
      env.mappingData = some (mp :: rest) →
      truthy mp.auth_token = true → truthy mp.origin = true →
      trimStr t = t → t ≠ "" →
      env.embed = .ok none →
      V1.run env msgs sessions fromNumber toNumber (some t) messageId
          mediaUrl now
        = ⟨⟨false, none, some "Failed to embed query", false, none⟩,
            msgs, sessions, [], false, []⟩) := by
  constructor
  · intro env sessionId message hsid hmsg hsmall hembed
    unfold ChatRoute.run
    rcases hembed with ⟨e, he⟩ | he <;>
      cases hl : env.llm <;>
        simp [hsid, hmsg, hsmall, he, hl]
  · intro env msgs sessions fromNumber toNumber t messageId mediaUrl now mp rest
      hfiles hmerr hmd hauth horig htrim hne hembed
    have hfe : env.files.isEmpty = false := by
      cases h : env.files
      · exact absurd h hfiles
      · rfl
    have h1 : (t == "") = false := by simpa using hne
    unfold V1.run
    simp [hfe, hmd, hmerr, hauth, horig, htrim, h1, hne, hembed]

/-- Claim C5 witness: a concrete chat turn with a null embedding
degrading to empty context, and a concrete first-responder turn with a
null embedding aborting with an error result. -/
theorem c5_amended_witness :
    ((ChatRoute.run { embed := .ok none, llm := .ok (some "ans") }
        (some "s1") (some "what are the offers")).status = 200 ∧
     (ChatRoute.run { embed := .ok none, llm := .ok (some "ans") }
        (some "s1") (some "what are the offers")).llmCalled = true ∧
     (ChatRoute.run { embed := .ok none, llm := .ok (some "ans") }
        (some "s1") (some "what are the offers")).contextUsed = some "") ∧
    V1.run { v1EnvOk with embed := .ok none } [inboundM1] [] "U1" "B1"
        (some "namaste") "m2" none 99
      = ⟨⟨false, none, some "Failed to embed query", false, none⟩,
          [inboundM1], [], [], false, []⟩ :=
  ⟨c5_amended_embedding_failure_paths.1
      { embed := .ok none, llm := .ok (some "ans") }
      (some "s1") (some "what are the offers")
      (by decide) (by decide) (by decide) (Or.inr rfl),
    c5_amended_embedding_failure_paths.2
      { v1EnvOk with embed := .ok none } [inboundM1] [] "U1" "B1"
      "namaste" "m2" none 99
      (PhoneMapping.mk none none (some "tok") (some "org")) []
      (by decide) rfl rfl (by decide) (by decide) (by decide) (by decide) rfl⟩

/-- Claim C3 counterexample (corrected): with exactly one stored
message — the just-inserted current inbound message "m1"/"hello" — the
history passed to generation is [("user", "hello")]: it CONTAINS the
just-inserted current inbound message, contradicting the claimed
exclusion (the query also selects the oldest rows ascending, not the
most recent ones). -/
theorem c3_counterexample_history_contains_current_inbound :
    (V1.run v1EnvOk [inboundM1] [] "U1" "B1" (some "hello") "m1" none 99).llmHistory
      = [("user", "hello")] := by
  decide

/-- Claim C3 as amended: the history passed to generation is the last
up-to-10 entries of the oldest up-to-20 conversation rows (ascending by
received time, filtered to non-empty text); whenever the conversation
has at most 10 stored rows, every stored message with non-empty text —
including the just-inserted current inbound message — appears in it. -/
theorem c3_amended_history_is_oldest_window (env : V1.Env)
    (msgs : List StoredMessage) (sessions : List Session)
    (fromNumber toNumber t messageId : String) (mediaUrl : Option String)
    (now : Nat) (mp : PhoneMapping) (rest : List PhoneMapping)
    (m : StoredMessage) (s : String)
    (hfiles : env.files ≠ []) (hmerr : env.mappingErr = false)
    (hmd : env.mappingData = some (mp :: rest))
    (hauth : truthy mp.auth_token = true) (horig : truthy mp.origin = true)
    (htrim : trimStr t = t) (hne : t ≠ "")
    (hembed : ∃ v, env.embed = .ok (some v))
    (hretr : ∃ chunks, env.retrieve = .ok chunks)
    (hm : m ∈ msgs) (hfrom : m.from_number = fromNumber)
    (hs : m.content_text = some s) (hsne : s ≠ "")
    (hcount : (convRows msgs fromNumber).length ≤ 10) :
    (V1.run env msgs sessions fromNumber toNumber (some t) messageId
        mediaUrl now).llmHistory
      = takeLast 10 (mkHistory 20 msgs fromNumber) ∧
    (roleOf m, s) ∈ (V1.run env msgs sessions fromNumber toNumber (some t)
        messageId mediaUrl now).llmHistory := by
  obtain ⟨v, hv⟩ := hembed
  obtain ⟨chunks, hch⟩ := hretr
  have hfe : env.files.isEmpty = false := by
    cases h : env.files
    · exact absurd h hfiles
    · rfl
  have h1 : (t == "") = false := by simpa using hne
  have hhist : (V1.run env msgs sessions fromNumber toNumber (some t) messageId
      mediaUrl now).llmHistory = takeLast 10 (mkHistory 20 msgs fromNumber) := by
    unfold V1.run
    simp only [hfe, hmd, hmerr, hauth, horig, htrim, h1, hne, hv, hch]
    simp [htrim, h1]
    repeat' split
    all_goals simp
  refine ⟨hhist, ?_⟩
  rw [hhist]
  have hconv : m ∈ convRows msgs fromNumber := by
    unfold convRows
    rw [List.mem_filter]
    exact ⟨hm, by simp [hfrom]⟩
  have hsortlen : (sortByTime (convRows msgs fromNumber)).length ≤ 10 := by
    rw [length_sortByTime]; exact hcount
  have hwin : historyWindow 20 msgs fromNumber
      = sortByTime (convRows msgs fromNumber) := by
    unfold historyWindow
    exact List.take_of_length_le (Nat.le_trans hsortlen (by omega))
  have hmw : m ∈ historyWindow 20 msgs fromNumber := by
    rw [hwin]; exact mem_sortByTime.mpr hconv
  have hmf : m ∈ (historyWindow 20 msgs fromNumber).filter
      (fun x => truthy x.content_text) := by
    rw [List.mem_filter]
    refine ⟨hmw, ?_⟩
    rw [hs]
    simpa [truthy] using hsne
  have hmm : (roleOf m, s) ∈ mkHistory 20 msgs fromNumber := by
    unfold mkHistory
    have := List.mem_map_of_mem
      (fun x => (roleOf x, x.content_text.getD "")) hmf
    simpa [hs] using this
  have hlenf : (mkHistory 20 msgs fromNumber).length ≤ 10 := by
    unfold mkHistory
    rw [List.length_map]
    calc ((historyWindow 20 msgs fromNumber).filter
            (fun x => truthy x.content_text)).length
        ≤ (historyWindow 20 msgs fromNumber).length := List.length_filter_le _ _
      _ ≤ 10 := by rw [hwin]; exact hsortlen
  rw [takeLast_of_length_le hlenf]
  exact hmm

/-- Claim C3 witness: with the store holding only the current inbound
message, the assembled history equals the windowed history and contains
the current inbound entry. -/
theorem c3_amended_witness :
    (V1.run v1EnvOk [inboundM1] [] "U1" "B1" (some "namaste") "m1" none 99).llmHistory
      = takeLast 10 (mkHistory 20 [inboundM1] "U1") ∧
    (roleOf inboundM1, "hello")
      ∈ (V1.run v1EnvOk [inboundM1] [] "U1" "B1" (some "namaste") "m1"
          none 99).llmHistory :=
  c3_amended_history_is_oldest_window v1EnvOk [inboundM1] [] "U1" "B1"
    "namaste" "m1" none 99
    (PhoneMapping.mk none none (some "tok") (some "org")) [] inboundM1 "hello"
    (by decide) rfl rfl (by decide) (by decide) (by decide) (by decide)
    ⟨1, rfl⟩ ⟨[], rfl⟩ (by decide) (by decide) (by decide) (by decide)
    (by decide)

/-- Claim C8 counterexample (corrected): on a delivery failure the
outcome reports failure, no outbound message is inserted and the
inbound responded flag is untouched (the message table is unchanged) —
but NO session state transition is persisted: the session table is
empty before and after the call, because this responder maintains no
session state at all, contradicting the claim that the session state
transition is still persisted. -/
theorem c8_counterexample_no_session_transition_persisted :
    V1.run { v1EnvOk with
        send := .ok { success := false, error := some "delivery http 500" } }
      [inboundM1] [] "U1" "B1" (some "hello") "m1" none 99
      = ⟨⟨false, some "reply!", some "delivery http 500", false, some false⟩,
          [inboundM1], [], [("U1", "reply!")], true, [("user", "hello")]⟩ := by
  decide

/-- Claim C8 as amended: for every turn whose delivery fails, the
outcome reports the delivery failure (`success = false`,
`sent = false`, carrying the delivery error), no outbound message is
inserted, and the inbound message's responded flag is unchanged (the
whole message table is unchanged); no session state is persisted either,
because this responder maintains no session state. -/
theorem c8_amended_delivery_failure_frame (env : V1.Env)
    (msgs : List StoredMessage) (sessions : List Session)
    (fromNumber toNumber t messageId : String) (mediaUrl : Option String)
    (now : Nat) (mp : PhoneMapping) (rest : List PhoneMapping)
    (resp : String) (sr : SendResult)
    (hfiles : env.files ≠ []) (hmerr : env.mappingErr = false)
    (hmd : env.mappingData = some (mp :: rest))
    (hauth : truthy mp.auth_token = true) (horig : truthy mp.origin = true)
    (htrim : trimStr t = t) (hne : t ≠ "")
    (hembed : ∃ v, env.embed = .ok (some v))
    (hretr : ∃ chunks, env.retrieve = .ok chunks)
    (hllm : env.llm = .ok resp) (hrne : resp ≠ "")
    (hsend : env.send = .ok sr) (hsf : sr.success = false) :
    V1.run env msgs sessions fromNumber toNumber (some t) messageId
        mediaUrl now
      = ⟨⟨false, some resp, sr.error, false, some false⟩, msgs, sessions,
          [(fromNumber, resp)], true,
          takeLast 10 (mkHistory 20 msgs fromNumber)⟩ := by
  obtain ⟨v, hv⟩ := hembed
  obtain ⟨chunks, hch⟩ := hretr
  have hfe : env.files.isEmpty = false := by
    cases h : env.files
    · exact absurd h hfiles
    · rfl
  have h1 : (t == "") = false := by simpa using hne
  have h2 : (resp == "") = false := by simpa using hrne
  unfold V1.run
  simp [hfe, hmd, hmerr, hauth, horig, htrim, h1, hne, hv, hch, hllm, h2,
    hsend, hsf]

/-- Claim C8 witness: a concrete delivery failure leaving both the
message table and the (empty) session table unchanged. -/
theorem c8_amended_witness :
    V1.run { v1EnvOk with
        send := .ok { success := false, error := some "timeout" } }
      [inboundM1] [] "U1" "B1" (some "namaste") "m1" none 99
      = ⟨⟨false, some "reply!", some "timeout", false, some false⟩,
          [inboundM1], [], [("U1", "reply!")], true,
          takeLast 10 (mkHistory 20 [inboundM1] "U1")⟩ :=
  c8_amended_delivery_failure_frame
    { v1EnvOk with send := .ok { success := false, error := some "timeout" } }
    [inboundM1] [] "U1" "B1" "namaste" "m1" none 99
    (PhoneMapping.mk none none (some "tok") (some "org")) [] "reply!"
    { success := false, error := some "timeout" }
    (by decide) rfl rfl (by decide) (by decide) (by decide) (by decide)
    ⟨1, rfl⟩ ⟨[], rfl⟩ rfl (by decide) rfl rfl

/-- Claim C1 counterexample (corrected): submitting the same audio
event id twice stores exactly one inbound message and the second
submission is acknowledged as a duplicate with no auto-response — but
the second submission re-transcribes the same media
(`transcribeCalls = 1` on the duplicate submission), because
transcription runs BEFORE the dedup insert, contradicting the claim
that a duplicate performs no re-transcription of the same media. -/
theorem c1_counterexample_duplicate_audio_is_retranscribed :
    (Webhook.run webhookEnvOk audioPayload [] []).msgs.length = 1 ∧
    (Webhook.run webhookEnvOk audioPayload
        (Webhook.run webhookEnvOk audioPayload [] []).msgs []).status = 200 ∧
    (Webhook.run webhookEnvOk audioPayload
        (Webhook.run webhookEnvOk audioPayload [] []).msgs []).body.duplicate
      = some true ∧
    (Webhook.run webhookEnvOk audioPayload
        (Webhook.run webhookEnvOk audioPayload [] []).msgs []).msgs
      = (Webhook.run webhookEnvOk audioPayload [] []).msgs ∧
    (Webhook.run webhookEnvOk audioPayload
        (Webhook.run webhookEnvOk audioPayload [] []).msgs []).respondCalled
      = false ∧
    (Webhook.run webhookEnvOk audioPayload
        (Webhook.run webhookEnvOk audioPayload [] []).msgs []).transcribeCalls
      = 1 := by
  decide

/-- Claim C1 as amended: resubmitting an already-stored event id (for
any non-audio event; audio events first re-run transcription because it
precedes the dedup insert) leaves the message table unchanged, returns
the success-with-duplicate acknowledgement with status 200 — never an
error status — and performs no auto-response generation and hence no
delivery after the failed insert. -/
theorem c1_amended_duplicate_acknowledged_without_reprocessing
    (env : Webhook.Env) (p : Webhook.Payload)
    (msgs : List StoredMessage) (sessions : List Session)
    (hid : p.messageId ≠ "") (hfrom : p.fromNumber ≠ "")
    (hto : p.toNumber ≠ "")
    (haudio : Webhook.audioEvent p = false)
    (hdup : hasId msgs p.messageId = true) :
    Webhook.run env p msgs sessions
      = ⟨200, { success := some true, duplicate := some true,
                message := some "Message already processed" },
          msgs, sessions, 0, false⟩ := by
  have h1 : (p.messageId == "") = false := by simpa using hid
  have h2 : (p.fromNumber == "") = false := by simpa using hfrom
  have h3 : (p.toNumber == "") = false := by simpa using hto
  unfold Webhook.run
  cases hc : p.content with
  | none =>
    simp [h1, h2, h3, Webhook.afterText, insertUnique, Webhook.mkInbound, hdup]
  | some c =>
    have hca : (c.contentType == "audio") = false := by
      unfold Webhook.audioEvent at haudio
      rw [hc] at haudio
      exact haudio
    simp [h1, h2, h3, hca, Webhook.afterText, insertUnique,
      Webhook.mkInbound, hdup]

/-- Claim C1 witness: a concrete text event resubmitted over a store
already holding its id. -/
theorem c1_amended_witness :
    Webhook.run webhookEnvOk textPayload
        [Webhook.mkInbound textPayload (some "hello")] []
      = ⟨200, { success := some true, duplicate := some true,
                message := some "Message already processed" },
          [Webhook.mkInbound textPayload (some "hello")], [], 0, false⟩ :=
  c1_amended_duplicate_acknowledged_without_reprocessing webhookEnvOk
    textPayload [Webhook.mkInbound textPayload (some "hello")] []
    (by decide) (by decide) (by decide) (by decide) (by decide)

/-- Claim C2 counterexample (corrected): an audio event whose
transcription yields no text is NOT recorded in the message store (the
store stays empty) and the handler returns a generic success body with
no transcription-failure indicator, contradicting the claim that the
handler returns a transcription-failed outcome and that the event is
still recorded as unresponded. -/
theorem c2_counterexample_failed_transcription_event_not_recorded :
    Webhook.run { transcribe := none } audioPayload [] []
      = ⟨200, { success := some true }, [], [], 1, false⟩ := by
  decide

/-- Claim C2 as amended: for every audio event whose transcription
yields no text (null or empty), the handler returns a generic success
acknowledgement with status 200 and no failure indicator, the event is
NOT recorded in the message store, the session table is untouched, and
no reply is attempted (the auto-responder is never invoked). -/
theorem c2_amended_failed_transcription_drops_event
    (env : Webhook.Env) (p : Webhook.Payload)
    (msgs : List StoredMessage) (sessions : List Session)
    (c : Webhook.Content)
    (hid : p.messageId ≠ "") (hfrom : p.fromNumber ≠ "")
    (hto : p.toNumber ≠ "")
    (hc : p.content = some c) (hct : c.contentType = "audio")
    (hmedia : truthy c.mediaUrl = true)
    (htr : env.transcribe = none ∨ env.transcribe = some "") :
    Webhook.run env p msgs sessions
      = ⟨200, { success := some true }, msgs, sessions, 1, false⟩ := by
  have h1 : (p.messageId == "") = false := by simpa using hid
  have h2 : (p.fromNumber == "") = false := by simpa using hfrom
  have h3 : (p.toNumber == "") = false := by simpa using hto
  unfold Webhook.run
  rcases htr with htr | htr <;>
    simp [h1, h2, h3, hc, hct, hmedia, htr]

/-- Claim C2 witness: a concrete audio event with a failed
transcription over a non-empty store, which stays unchanged. -/
theorem c2_amended_witness :
    Webhook.run { transcribe := none } audioPayload [inboundM1] []
      = ⟨200, { success := some true }, [inboundM1], [], 1, false⟩ :=
  c2_amended_failed_transcription_drops_event { transcribe := none }
    audioPayload [inboundM1] []
    { contentType := "audio", mediaUrl := some "https-media-x" }
    (by decide) (by decide) (by decide) rfl rfl (by decide) (Or.inl rfl)

/-- Claim C7 counterexample (corrected): a legal conversation trace in
which fifteen stored events with no usable text precede two user text
turns produces TWO outbound replies carrying the greeting, because the
greeting is gated on the emptiness of the windowed history query
(oldest at most 15 rows, filtered to non-empty text), not on the
absence of prior stored messages; this contradicts both the claimed
at-most-one greeting per trace and the claim that a greeting can only
occur when there are no prior stored messages. -/
theorem c7_counterexample_two_greeted_replies :
    (RespL.runTrace respLEnvOk "U1" "B1" "Bob" [] greetTraceEvents).2 = 2 := by
  decide

/-- Claim C7 as amended: the greeting prefix is prepended only when the
responder's history query — the oldest at most 15 stored conversation
rows, filtered to rows with non-empty text — returns nothing and the
cleaned sender name is non-empty.  Because the current inbound message
is stored before the responder runs, traces whose stored rows all have
non-empty text never greet; traces with at least fifteen earlier
empty-content rows can greet on several replies. -/
theorem c7_amended_greeting_gated_on_windowed_history (env : RespL.Env)
    (msgs : List StoredMessage) (fromNumber toNumber : String)
    (messageText : Option String) (messageId : String)
    (mediaUrl : Option String) (senderName : Option String) (now : Nat)
    (hg : (RespL.run env msgs fromNumber toNumber messageText messageId
            mediaUrl senderName now).greeted = true) :
    mkHistory 15 msgs fromNumber = [] ∧
    truthy (RespL.cleanUserName senderName) = true := by
  unfold RespL.run at hg
  repeat' split at hg
  all_goals try simp_all
  all_goals repeat' split at hg
  all_goals simp_all

/-- Claim C7 witness: over an empty store with a known sender name the
responder greets, and the theorem yields the empty windowed history and
the non-empty cleaned name. -/
theorem c7_amended_witness :
    mkHistory 15 ([] : List StoredMessage) "U1" = [] ∧
    truthy (RespL.cleanUserName (some "Bob")) = true :=
  c7_amended_greeting_gated_on_windowed_history respLEnvOk [] "U1" "B1"
    (some "hi") "m1" none (some "Bob") 1 (by decide)
